import Mathlib

/-!
Shallow embedding of `src/cldv2/js/main.js`, the site's client-side
interactivity layer (theme toggle, mobile navigation, disclosure menus,
search dialog).  The DOM and storage state touched by each feature is
modelled as an explicit record; every JS event handler becomes a
state-transition function translated line by line from the source.
All definitions are executable, so concrete scenarios can be settled by
evaluation.
-/

namespace Cldv2

/-! ### Theme toggle (main.js lines 56-77) -/

/-- State read or written by the theme feature: `attr` is
`document.documentElement.dataset.theme` (`none` = attribute absent),
`stored` is the value under the localStorage key `theme` (`none` = key
absent), `label` is the toggle button's `aria-label` (`none` = attribute
absent), and `osDark` is the value of
`window.matchMedia('(prefers-color-scheme: dark)').matches`. -/
structure ThemeState where
  attr : Option String
  stored : Option String
  label : Option String
  osDark : Bool
  deriving Repr, DecidableEq

/-- JS truthiness of a dataset entry: `undefined` and the empty string are
falsy, every other string is truthy. -/
def datasetTruthy : Option String → Bool
  | none => false
  | some s => !(s == "")

/-- Lines 65-66: `root.dataset.theme === 'dark' ||
(!root.dataset.theme && window.matchMedia('(prefers-color-scheme: dark)').matches)`. -/
def themeIsDark (s : ThemeState) : Bool :=
  (s.attr == some "dark") || (!(datasetTruthy s.attr) && s.osDark)

/-- Lines 73-75: the aria-label written after applying `newTheme`. -/
def themeLabel (newTheme : String) : String :=
  if newTheme == "dark" then "Přepnout na světlý motiv" else "Přepnout na tmavý motiv"

/-- The themeToggle click handler (lines 63-76), in the run where
`localStorage.setItem` succeeds: compute the effective theme, flip it,
write it to the document attribute and to storage, update the label. -/
def themeToggleClick (s : ThemeState) : ThemeState :=
  let newTheme := if themeIsDark s then "light" else "dark"
  { s with attr := some newTheme, stored := some newTheme, label := some (themeLabel newTheme) }

/-- The themeToggle click handler with a fallible `localStorage.setItem`
(`setOk = false` means the write at line 70 throws).  Returns the state
actually reached plus `true` iff the handler ran to completion.  The
source wraps nothing in try/catch, so on a throwing write the attribute
update of line 69 has already happened, the label update of lines 73-75
is never reached, the stored value is unchanged, and the exception
escapes the handler. -/
def themeToggleClickFallible (s : ThemeState) (setOk : Bool) : ThemeState × Bool :=
  let newTheme := if themeIsDark s then "light" else "dark"
  let s1 := { s with attr := some newTheme }
  if setOk then
    ({ s1 with stored := some newTheme, label := some (themeLabel newTheme) }, true)
  else
    (s1, false)

/-- Outcome of the script prologue: the resulting document theme
attribute, and whether the wiring that follows line 59 was reached. -/
structure InitOutcome where
  attr : Option String
  restWired : Bool
  deriving Repr, DecidableEq

/-- Lines 56-59 of the IIFE with a fallible `localStorage.getItem`:
`Except.error` means the read at line 56 threw; nothing catches it, so
the exception escapes the IIFE and none of the later feature wiring runs.
On success, a truthy saved value is applied to the document attribute
(`if (savedTheme) { document.documentElement.dataset.theme = savedTheme }`). -/
def initThemeRestore (attr0 : Option String) (getAttempt : Except Unit (Option String)) :
    Except Unit InitOutcome :=
  match getAttempt with
  | Except.error e => Except.error e
  | Except.ok savedTheme =>
      Except.ok { attr := if datasetTruthy savedTheme then savedTheme else attr0,
                  restWired := true }

/-! ### Mobile navigation (main.js lines 84-131) -/

/-- State touched by the mobile navigation feature: the panel's
`aria-hidden`, the hamburger's `aria-expanded` and `aria-label`,
`document.body.style.overflow`, and whether keyboard focus sits on the
hamburger trigger. -/
structure NavState where
  ariaHidden : String
  ariaExpanded : String
  ariaLabel : String
  bodyOverflow : String
  focusOnHamburger : Bool
  deriving Repr, DecidableEq

/-- The `closeNav` function (lines 125-130). -/
def closeNav (s : NavState) : NavState :=
  { s with ariaHidden := "true", ariaExpanded := "false",
           ariaLabel := "Otevřít navigaci", bodyOverflow := "" }

/-- Hamburger click handler (lines 88-101): toggles the panel open or
closed based on the current `aria-hidden` value. -/
def hamburgerClick (s : NavState) : NavState :=
  let isOpen := s.ariaHidden == "false"
  let newState := !isOpen
  { s with ariaHidden := toString (!newState), ariaExpanded := toString newState,
           ariaLabel := if newState then "Zavřít navigaci" else "Otevřít navigaci",
           bodyOverflow := if newState then "hidden" else "" }

/-- Click handler on the nav panel (lines 104-110): calls `closeNav` only
when the click target is the panel element itself (`e.target === siteNav`). -/
def siteNavClick (targetIsPanel : Bool) (s : NavState) : NavState :=
  if targetIsPanel then closeNav s else s

/-- Document keydown handler (lines 113-118): when the key is Escape and
the panel is open, close it and return focus to the hamburger trigger. -/
def navKeydown (keyIsEscape : Bool) (s : NavState) : NavState :=
  if keyIsEscape && (s.ariaHidden == "false") then
    { closeNav s with focusOnHamburger := true }
  else s

/-- Nav link click handler (lines 121-123): unconditionally `closeNav`. -/
def navLinkClick (s : NavState) : NavState := closeNav s

/-! ### Disclosure menus (main.js lines 159-167) -/

/-- One group of sibling disclosure elements (`.site-nav details`) in
document order; entry `j` is `true` when that disclosure carries the
`open` attribute. -/
abbrev DisclosureGroup := List Bool

/-- The forEach body of lines 162-164, walking the group with `j` the
index of the head of the remaining list: remove the `open` attribute from
every member whose index differs from `i`.  Removing the attribute from
an already closed member is a no-op, so forcing every non-`i` entry to
`false` is exact. -/
def closeOtherDisclosures (i : Nat) : Nat → DisclosureGroup → DisclosureGroup
  | _, [] => []
  | j, b :: rest => (if j = i then b else false) :: closeOtherDisclosures i (j + 1) rest

/-- Toggle handler attached to disclosure `i` (lines 160-166): when `i` is
open after the toggle, close every other member of the group.  (Removing
`open` from another member re-fires that member's own toggle handler,
whose `details.open` guard is then false, so no further change happens.) -/
def detailsToggle (i : Nat) (g : DisclosureGroup) : DisclosureGroup :=
  if g.getD i false then closeOtherDisclosures i 0 g else g

/-- An open transition of disclosure `i`: the `open` attribute appears on
`i`, then its toggle handler runs. -/
def openDisclosure (i : Nat) (g : DisclosureGroup) : DisclosureGroup :=
  detailsToggle i (g.set i true)

/-! ### Search dialog (main.js lines 175-248) -/

/-- Dialog state: `isOpen` models the native `open` attribute as reported
by `searchDialog.open`; `closing` models presence of the `data-closing`
attribute (`searchDialog.dataset.closing`). -/
structure DialogState where
  isOpen : Bool
  closing : Bool
  deriving Repr, DecidableEq

/-- Native `dialog.close()`: removes the `open` attribute; calling it on
an already-closed dialog changes nothing. -/
def dialogClose (s : DialogState) : DialogState := { s with isOpen := false }

/-- The once-only animationend listener registered inside `closeSearch`
(lines 234-238): unconditionally delete `dataset.closing`, then call
`close()`. -/
def animationendCleanup (s : DialogState) : DialogState :=
  dialogClose { s with closing := false }

/-- The 300 ms fallback timer callback (lines 242-247): only when
`searchDialog.open` is still true does it delete `dataset.closing` and
call `close()`. -/
def fallbackCleanup (s : DialogState) : DialogState :=
  if s.isOpen then dialogClose { s with closing := false } else s

/-- The synchronous body of `closeSearch` (line 232): set `data-closing`.
Registering the animationend listener and scheduling the timer have no
immediate state effect. -/
def closeSearchRequest (s : DialogState) : DialogState := { s with closing := true }

/-- A cleanup path checks the dialog's current open state before acting
exactly when it leaves every closed-dialog state untouched. -/
def checksOpenBeforeActing (path : DialogState → DialogState) : Prop :=
  ∀ s, s.isOpen = false → path s = s

/-- Dialog state at the moment the 300 ms fallback timer has fired, for a
close request issued in state `s`; `animEndFired` records whether an
animationend event arrived before the timer did. -/
def stateAtFallback (s : DialogState) (animEndFired : Bool) : DialogState :=
  let s1 := closeSearchRequest s
  fallbackCleanup (if animEndFired then animationendCleanup s1 else s1)

/-- State touched by the quick-search hint handler: whether the
`.search-dialog__input` element exists, its value, whether focus is on
it, the dialog's `open` attribute, and whether any form submission has
happened. -/
structure SearchUIState where
  inputPresent : Bool
  inputValue : String
  focusOnInput : Bool
  dialogOpen : Bool
  submitted : Bool
  deriving Repr, DecidableEq

/-- Hint click handler (lines 222-227) for a hint element whose
`textContent` is `hintText`: if the input exists, copy the trimmed text
into it and focus it. -/
def hintClick (hintText : String) (s : SearchUIState) : SearchUIState :=
  if s.inputPresent then
    { s with inputValue := hintText.trim, focusOnInput := true }
  else s

/-! ### Theorems -/

/-- C4: with the document theme attribute unset and the OS preference
reporting dark, the first themeToggle click sets the attribute to
`light` and stores `light`; the second click sets `dark` and stores
`dark`. -/
theorem c4_unset_attr_os_dark_two_clicks (s : ThemeState)
    (h1 : s.attr = none) (h2 : s.osDark = true) :
    (themeToggleClick s).attr = some "light"
    ∧ (themeToggleClick s).stored = some "light"
    ∧ (themeToggleClick (themeToggleClick s)).attr = some "dark"
    ∧ (themeToggleClick (themeToggleClick s)).stored = some "dark" := by
  obtain ⟨attr, stored, label, osDark⟩ := s
  simp only at h1 h2
  subst h1 h2
  refine ⟨rfl, rfl, ?_, ?_⟩ <;>
    simp [themeToggleClick, themeIsDark, datasetTruthy]

/-- Witness for C4 at the concrete state with nothing stored. -/
theorem c4_unset_attr_os_dark_two_clicks_witness :
    (themeToggleClick ⟨none, none, none, true⟩).attr = some "light"
    ∧ (themeToggleClick ⟨none, none, none, true⟩).stored = some "light"
    ∧ (themeToggleClick (themeToggleClick ⟨none, none, none, true⟩)).attr = some "dark"
    ∧ (themeToggleClick (themeToggleClick ⟨none, none, none, true⟩)).stored = some "dark" :=
  c4_unset_attr_os_dark_two_clicks ⟨none, none, none, true⟩ rfl rfl

/-- C10: after any themeToggle click the document attribute is exactly
`light` or `dark`, the stored preference equals the attribute, and the
trigger's aria-label is the one corresponding to that theme. -/
theorem c10_toggle_invariant (s : ThemeState) :
    ((themeToggleClick s).attr = some "light" ∨ (themeToggleClick s).attr = some "dark")
    ∧ (themeToggleClick s).stored = (themeToggleClick s).attr
    ∧ (themeToggleClick s).label = Option.map themeLabel (themeToggleClick s).attr := by
  unfold themeToggleClick
  cases themeIsDark s <;> simp

/-- C3 counterexample: starting with attribute `dark` but nothing stored,
two themeToggle clicks leave `dark` stored, not the original absent
value, so double toggling does not restore the stored preference for
every initial state. -/
theorem c3_double_toggle_counterexample :
    (themeToggleClick (themeToggleClick
        ⟨some "dark", none, none, false⟩)).stored
      ≠ (ThemeState.mk (some "dark") none none false).stored := by
  decide

/-- C3 amended: when the document attribute is exactly `light` or `dark`
and the stored preference equals the attribute, two themeToggle clicks
restore both the attribute and the stored value. -/
theorem c3_double_toggle_roundtrip (s : ThemeState)
    (h1 : s.attr = some "light" ∨ s.attr = some "dark") (h2 : s.stored = s.attr) :
    (themeToggleClick (themeToggleClick s)).attr = s.attr
    ∧ (themeToggleClick (themeToggleClick s)).stored = s.stored := by
  obtain ⟨attr, stored, label, osDark⟩ := s
  simp only at h1 h2
  subst h2
  rcases h1 with h | h <;> subst h <;>
    simp [themeToggleClick, themeIsDark, datasetTruthy]

/-- Witness for the amended C3 at a concrete light-themed state. -/
theorem c3_double_toggle_roundtrip_witness :
    (themeToggleClick (themeToggleClick ⟨some "light", some "light", none, true⟩)).attr
      = (ThemeState.mk (some "light") (some "light") none true).attr
    ∧ (themeToggleClick (themeToggleClick ⟨some "light", some "light", none, true⟩)).stored
      = (ThemeState.mk (some "light") (some "light") none true).stored :=
  c3_double_toggle_roundtrip ⟨some "light", some "light", none, true⟩ (Or.inl rfl) rfl

/-- C2 counterexample: a throwing `localStorage.getItem` does not behave
like an absent preference — the prologue propagates the error instead of
reaching the rest of the wiring — and a throwing `localStorage.setItem`
aborts the click handler rather than being swallowed. -/
theorem c2_storage_error_counterexample :
    initThemeRestore none (Except.error ()) ≠ initThemeRestore none (Except.ok none)
    ∧ (themeToggleClickFallible ⟨some "dark", some "dark", none, false⟩ false).2 = false :=
  ⟨fun h => Except.noConfusion h, rfl⟩

/-- C2 amended: storage errors are not caught anywhere.  A failing read
on load propagates out of the IIFE, so none of the remaining features
wire up; a failing write on toggle propagates after the document
attribute has been updated but before the label update, leaving the
stored value and the label unchanged and aborting the handler. -/
theorem c2_storage_error_propagates (attr0 : Option String) (s : ThemeState) :
    initThemeRestore attr0 (Except.error ()) = Except.error ()
    ∧ (themeToggleClickFallible s false).2 = false
    ∧ (themeToggleClickFallible s false).1.stored = s.stored
    ∧ (themeToggleClickFallible s false).1.label = s.label
    ∧ (themeToggleClickFallible s false).1.attr
        = some (if themeIsDark s then "light" else "dark") :=
  ⟨rfl, rfl, rfl, rfl, rfl⟩

/-- C5: each of the three nav close triggers — a click targeting the
panel container itself, Escape while the panel is open, and any nav link
click — sets `aria-hidden` to `true` on the panel, `aria-expanded` to
`false` on the trigger, and clears the body scroll suppression; the
Escape path additionally returns keyboard focus to the hamburger. -/
theorem c5_nav_close_triggers (s : NavState) (h : s.ariaHidden = "false") :
    (siteNavClick true s).ariaHidden = "true"
    ∧ (siteNavClick true s).ariaExpanded = "false"
    ∧ (siteNavClick true s).bodyOverflow = ""
    ∧ (navKeydown true s).ariaHidden = "true"
    ∧ (navKeydown true s).ariaExpanded = "false"
    ∧ (navKeydown true s).bodyOverflow = ""
    ∧ (navKeydown true s).focusOnHamburger = true
    ∧ (navLinkClick s).ariaHidden = "true"
    ∧ (navLinkClick s).ariaExpanded = "false"
    ∧ (navLinkClick s).bodyOverflow = "" := by
  simp [siteNavClick, navKeydown, navLinkClick, closeNav, h]

/-- Witness for C5 at the concrete open-panel state. -/
theorem c5_nav_close_triggers_witness :
    (siteNavClick true ⟨"false", "true", "Zavřít navigaci", "hidden", false⟩).ariaHidden = "true"
    ∧ (siteNavClick true ⟨"false", "true", "Zavřít navigaci", "hidden", false⟩).ariaExpanded = "false"
    ∧ (siteNavClick true ⟨"false", "true", "Zavřít navigaci", "hidden", false⟩).bodyOverflow = ""
    ∧ (navKeydown true ⟨"false", "true", "Zavřít navigaci", "hidden", false⟩).ariaHidden = "true"
    ∧ (navKeydown true ⟨"false", "true", "Zavřít navigaci", "hidden", false⟩).ariaExpanded = "false"
    ∧ (navKeydown true ⟨"false", "true", "Zavřít navigaci", "hidden", false⟩).bodyOverflow = ""
    ∧ (navKeydown true ⟨"false", "true", "Zavřít navigaci", "hidden", false⟩).focusOnHamburger = true
    ∧ (navLinkClick ⟨"false", "true", "Zavřít navigaci", "hidden", false⟩).ariaHidden = "true"
    ∧ (navLinkClick ⟨"false", "true", "Zavřít navigaci", "hidden", false⟩).ariaExpanded = "false"
    ∧ (navLinkClick ⟨"false", "true", "Zavřít navigaci", "hidden", false⟩).bodyOverflow = "" :=
  c5_nav_close_triggers ⟨"false", "true", "Zavřít navigaci", "hidden", false⟩ rfl

/-- C6: `closeNav` is idempotent — closing an already-closed panel
leaves every observable (panel attribute, trigger attributes and label,
body scroll suppression) exactly as a single close does. -/
theorem c6_closeNav_idempotent (s : NavState) : closeNav (closeNav s) = closeNav s := rfl

/-- Position `k` of the sweep started at offset `j0` keeps the original
entry exactly when its absolute index `j0 + k` is the opener `i`. -/
theorem closeOtherDisclosures_getD (i : Nat) (g : DisclosureGroup) :
    ∀ j0 k, (closeOtherDisclosures i j0 g).getD k false
      = if j0 + k = i then g.getD k false else false := by
  induction g with
  | nil =>
      intro j0 k
      simp [closeOtherDisclosures]
  | cons b rest ih =>
      intro j0 k
      cases k with
      | zero => simp [closeOtherDisclosures]
      | succ k =>
          simp only [closeOtherDisclosures, List.getD_cons_succ]
          rw [ih (j0 + 1) k]
          have hidx : j0 + 1 + k = j0 + (k + 1) := by omega
          rw [hidx]

/-- Setting index `i` to `true` makes the entry at `i` read `true`
whenever `i` is in bounds. -/
theorem getD_set_true : ∀ (g : List Bool) (i : Nat), i < g.length →
    (g.set i true).getD i false = true
  | _ :: _, 0, _ => rfl
  | _ :: rest, i + 1, h => getD_set_true rest i (Nat.lt_of_succ_lt_succ h)

/-- C7: after disclosure `i` of a group transitions to open and the
toggle handlers run, disclosure `i` is open and every other member of
the group has lost its `open` attribute, so at most one disclosure in
the group is open. -/
theorem c7_accordion_single_open (g : DisclosureGroup) (i : Nat) (h : i < g.length) :
    (openDisclosure i g).getD i false = true
    ∧ ∀ j, j ≠ i → (openDisclosure i g).getD j false = false := by
  have hset : (g.set i true).getD i false = true :=
    getD_set_true g i (by simpa using h)
  constructor
  · rw [openDisclosure, detailsToggle, if_pos hset, closeOtherDisclosures_getD]
    simpa using hset
  · intro j hj
    rw [openDisclosure, detailsToggle, if_pos hset, closeOtherDisclosures_getD]
    simp [hj]

/-- Witness for C7: opening disclosure 1 while disclosure 0 is open
leaves 1 open and removes the `open` attribute from 0. -/
theorem c7_accordion_single_open_witness :
    (openDisclosure 1 [true, false, true]).getD 1 false = true
    ∧ (openDisclosure 1 [true, false, true]).getD 0 false = false :=
  ⟨(c7_accordion_single_open [true, false, true] 1 (by decide)).1,
   (c7_accordion_single_open [true, false, true] 1 (by decide)).2 0 (by decide)⟩

/-- C1 counterexample: it is not the case that both cleanup paths of
`closeSearch` check the dialog's open state before acting — the
animationend path clears the `data-closing` marker and calls `close()`
unconditionally, so on the closed dialog still carrying the marker it is
not the identity. -/
theorem c1_both_paths_check_counterexample :
    ¬ (checksOpenBeforeActing animationendCleanup
        ∧ checksOpenBeforeActing fallbackCleanup) := by
  intro h
  have h2 := h.1 ⟨false, true⟩ rfl
  simp [animationendCleanup, dialogClose] at h2

/-- C1 amended: only the fallback-timer path checks the dialog's open
state before acting (it leaves any closed dialog untouched); the
animationend path acts unconditionally, but its actions are harmless on
a closed dialog, so double invocation of close is still safe: after a
close request on an open dialog, running both cleanup paths in either
order ends in the same fully closed state with the marker cleared. -/
theorem c1_double_close_safe (s t : DialogState)
    (_hs : s.isOpen = true) (ht : t.isOpen = false) :
    fallbackCleanup t = t
    ∧ animationendCleanup t = ⟨false, false⟩
    ∧ animationendCleanup (fallbackCleanup (closeSearchRequest s)) = ⟨false, false⟩
    ∧ fallbackCleanup (animationendCleanup (closeSearchRequest s)) = ⟨false, false⟩ := by
  refine ⟨?_, rfl, rfl, rfl⟩
  simp [fallbackCleanup, ht]

/-- Witness for the amended C1 at an open dialog and at a closed dialog
still carrying the closing marker. -/
theorem c1_double_close_safe_witness :
    fallbackCleanup ⟨false, true⟩ = ⟨false, true⟩
    ∧ animationendCleanup ⟨false, true⟩ = ⟨false, false⟩
    ∧ animationendCleanup (fallbackCleanup (closeSearchRequest ⟨true, false⟩)) = ⟨false, false⟩
    ∧ fallbackCleanup (animationendCleanup (closeSearchRequest ⟨true, false⟩)) = ⟨false, false⟩ :=
  c1_double_close_safe ⟨true, false⟩ ⟨false, true⟩ rfl rfl

/-- C8: for any close request issued while the dialog is open, once the
300 ms fallback timer has fired the dialog is closed and the closing
marker is cleared — whether or not an animationend event was ever
emitted, so the dialog cannot stay in the closing state past the
fallback duration. -/
theorem c8_closed_within_fallback (s : DialogState) (animEndFired : Bool)
    (h : s.isOpen = true) :
    stateAtFallback s animEndFired = ⟨false, false⟩ := by
  cases animEndFired <;>
    simp [stateAtFallback, closeSearchRequest, fallbackCleanup, animationendCleanup,
      dialogClose, h]

/-- Witness for C8: an open dialog with no animationend event is closed
with the marker cleared once the fallback fires. -/
theorem c8_closed_within_fallback_witness :
    stateAtFallback ⟨true, false⟩ false = ⟨false, false⟩ :=
  c8_closed_within_fallback ⟨true, false⟩ false rfl

/-- C9: clicking a quick-search hint copies the hint's trimmed label
text into the search input and focuses it, while leaving the dialog's
open state unchanged and submitting nothing. -/
theorem c9_hint_click (hintText : String) (s : SearchUIState)
    (h : s.inputPresent = true) :
    (hintClick hintText s).inputValue = hintText.trim
    ∧ (hintClick hintText s).focusOnInput = true
    ∧ (hintClick hintText s).dialogOpen = s.dialogOpen
    ∧ (hintClick hintText s).submitted = s.submitted := by
  simp [hintClick, h]

/-- Witness for C9 on a concrete hint label inside the open dialog. -/
theorem c9_hint_click_witness :
    (hintClick " Praha " ⟨true, "", false, true, false⟩).inputValue = " Praha ".trim
    ∧ (hintClick " Praha " ⟨true, "", false, true, false⟩).focusOnInput = true
    ∧ (hintClick " Praha " ⟨true, "", false, true, false⟩).dialogOpen
        = (SearchUIState.mk true "" false true false).dialogOpen
    ∧ (hintClick " Praha " ⟨true, "", false, true, false⟩).submitted
        = (SearchUIState.mk true "" false true false).submitted :=
  c9_hint_click " Praha " ⟨true, "", false, true, false⟩ rfl

end Cldv2
